import Mathlib

/-!
Verification of the Coinflow backend (src/main.py, src/schemas.py): a shallow
embedding of the validated document ingestion and retrieval layer, followed by
theorems about its behaviour. Python floats carried in request bodies are
modelled as rationals; JSON objects as association lists in insertion order,
mirroring Python dict semantics.
-/

/-- Dynamically typed document field values (the subset the endpoints handle):
JSON strings, numbers, null, and the native identifier type of the store. -/
inductive Value where
  | str (s : String)
  | num (q : Rat)
  | oid (n : Nat)
  | null
deriving DecidableEq, Repr

/-- Python truthiness of a value, as used by `or` and `if x:` in main.py:
None and the empty string are falsy. -/
def Value.truthy : Value → Bool
  | Value.str s => !s.isEmpty
  | Value.num q => decide (q ≠ 0)
  | Value.oid _ => true
  | Value.null => false

/-- Python str() rendering of a value (the exact rendering of an ObjectId is
irrelevant to the claims; only that the result is a string). -/
def Value.pyStr : Value → String
  | Value.str s => s
  | Value.num q => toString q
  | Value.oid n => toString n
  | Value.null => "None"

/-- A JSON object / Python dict: association list of fields in insertion
order. Keys are unique in every document the system builds. -/
abbrev Doc := List (String × Value)

/-- Dict lookup, d.get(k): first binding of the key, if any. -/
def getKey : Doc → String → Option Value
  | [], _ => none
  | (k2, v) :: rest, k => if k2 = k then some v else getKey rest k

/-- Dict assignment d[k] = v: replaces the binding in place if the key is
present (Python dicts keep insertion position), else appends it. -/
def setKey : Doc → String → Value → Doc
  | [], k, v => [(k, v)]
  | (k2, w) :: rest, k, v =>
      if k2 = k then (k, v) :: rest else (k2, w) :: setKey rest k v

/-- Python x or y on an optional dict value: the value when truthy, else the
fallback. -/
def pyOr (v : Option Value) (dflt : Value) : Value :=
  match v with
  | some w => if Value.truthy w then w else dflt
  | none => dflt

/-- str(d.get(k)) where a missing key yields None. -/
def pyStrOpt : Option Value → String
  | some v => Value.pyStr v
  | none => "None"

/-! Field extraction following the pydantic models of main.py: a required
float field, a string field with a default, an Optional string field (null
accepted as absent), and a float field with a default. Each failure names the
offending field, as pydantic does. -/

def reqFloat (d : Doc) (k : String) : Except String Rat :=
  match getKey d k with
  | some (Value.num q) => Except.ok q
  | some _ => Except.error (k ++ ": value is not a valid number")
  | none => Except.error (k ++ ": field required")

def reqStr (d : Doc) (k : String) : Except String String :=
  match getKey d k with
  | some (Value.str s) => Except.ok s
  | some _ => Except.error (k ++ ": value is not a valid string")
  | none => Except.error (k ++ ": field required")

def optStr (d : Doc) (k : String) : Except String (Option String) :=
  match getKey d k with
  | some (Value.str s) => Except.ok (some s)
  | some Value.null => Except.ok none
  | some _ => Except.error (k ++ ": value is not a valid string")
  | none => Except.ok none

def defStr (d : Doc) (k : String) (dflt : String) : Except String String :=
  match getKey d k with
  | some (Value.str s) => Except.ok s
  | some _ => Except.error (k ++ ": value is not a valid string")
  | none => Except.ok dflt

def defFloat (d : Doc) (k : String) (dflt : Rat) : Except String Rat :=
  match getKey d k with
  | some (Value.num q) => Except.ok q
  | some _ => Except.error (k ++ ": value is not a valid number")
  | none => Except.ok dflt

/-- Request model ExpenseIn of main.py: amount is required, currency defaults
to USD, type is a plain str defaulting to debit (no enumeration constraint in
this model), all other fields optional with default None. -/
structure ExpenseIn where
  amount : Rat
  currency : String
  date : Option String
  merchant : Option String
  note : Option String
  category : Option String
  account : Option String
  type : String
deriving DecidableEq, Repr

/-- FastAPI body validation of a request against ExpenseIn. -/
def ExpenseIn.validate (d : Doc) : Except String ExpenseIn := do
  let amount ← reqFloat d "amount"
  let currency ← defStr d "currency" "USD"
  let date ← optStr d "date"
  let merchant ← optStr d "merchant"
  let note ← optStr d "note"
  let category ← optStr d "category"
  let account ← optStr d "account"
  let ty ← defStr d "type" "debit"
  Except.ok { amount := amount, currency := currency, date := date,
              merchant := merchant, note := note, category := category,
              account := account, type := ty }

/-- None-valued optional fields dump to null. -/
def optVal : Option String → Value
  | some s => Value.str s
  | none => Value.null

/-- expense.model_dump(): every declared field, in declaration order. -/
def ExpenseIn.model_dump (e : ExpenseIn) : Doc :=
  [("amount", Value.num e.amount), ("currency", Value.str e.currency),
   ("date", optVal e.date), ("merchant", optVal e.merchant),
   ("note", optVal e.note), ("category", optVal e.category),
   ("account", optVal e.account), ("type", Value.str e.type)]

/-- Request model BudgetIn of main.py: category and amount required (amount a
plain float with no positivity constraint in this model), month optional. -/
structure BudgetIn where
  category : String
  amount : Rat
  month : Option String
deriving DecidableEq, Repr

def BudgetIn.validate (d : Doc) : Except String BudgetIn := do
  let category ← reqStr d "category"
  let amount ← reqFloat d "amount"
  let month ← optStr d "month"
  Except.ok { category := category, amount := amount, month := month }

def BudgetIn.model_dump (b : BudgetIn) : Doc :=
  [("category", Value.str b.category), ("amount", Value.num b.amount),
   ("month", optVal b.month)]

/-- Request model GoalIn of main.py: name and target_amount required (plain
float, no positivity constraint in this model), current_amount defaults to 0,
deadline optional. -/
structure GoalIn where
  name : String
  target_amount : Rat
  current_amount : Rat
  deadline : Option String
deriving DecidableEq, Repr

def GoalIn.validate (d : Doc) : Except String GoalIn := do
  let name ← reqStr d "name"
  let target_amount ← reqFloat d "target_amount"
  let current_amount ← defFloat d "current_amount" 0
  let deadline ← optStr d "deadline"
  Except.ok { name := name, target_amount := target_amount,
              current_amount := current_amount, deadline := deadline }

def GoalIn.model_dump (g : GoalIn) : Doc :=
  [("name", Value.str g.name), ("target_amount", Value.num g.target_amount),
   ("current_amount", Value.num g.current_amount),
   ("deadline", optVal g.deadline)]

/-- The document store state: documents tagged with their collection name in
insertion order, the next identifier the store will assign, and, when the
store is unreachable, the error message its client raises. -/
structure Store where
  docs : List (String × Doc)
  nextId : Nat
  unreachable : Option String
deriving DecidableEq, Repr

/-- Modelled from the spec: main.py imports create_document from database.py,
which is not under src/. Per the Document Access Facade section of the spec,
insert(collectionName, document) persists exactly one document into the named
collection and returns a store-assigned unique identifier, and fails with a
storage error when the underlying store is unreachable. -/
def create_document (store : Store) (collection : String) (data : Doc) :
    Except String (Store × Nat) :=
  match store.unreachable with
  | some msg => Except.error msg
  | none =>
      Except.ok
        ({ store with
            docs := store.docs ++
              [(collection, setKey data "_id" (Value.oid store.nextId))],
            nextId := store.nextId + 1 },
         store.nextId)

/-- Exact-match filter semantics: logical AND across the filter fields; the
empty filter matches every document. -/
def matchesFilter (doc fq : Doc) : Bool :=
  fq.all (fun kv => decide (getKey doc kv.1 = some kv.2))

/-- Modelled from the spec: main.py imports get_documents from database.py,
which is not under src/. Per the Document Access Facade section of the spec,
find(collectionName, filter, limit) returns the documents of the collection
matching the exact-match filter, capped at limit entries, in insertion order
(the natural retrieval order the spec designates), and fails with a storage
error when the store is unreachable. -/
def get_documents (store : Store) (collection : String) (fq : Doc)
    (limit : Nat) : Except String (List Doc) :=
  match store.unreachable with
  | some msg => Except.error msg
  | none =>
      Except.ok
        (((store.docs.filter
            (fun p => decide (p.1 = collection) && matchesFilter p.2 fq)).map
          Prod.snd).take limit)

/-- The response shapes the endpoints produce: the create and list success
bodies, a 422 client input error (body or query validation), and a 500 server
error raised by the except branch of a handler. -/
inductive HttpResponse where
  | okCreate (id : Nat)
  | okList (items : List Doc)
  | clientError (detail : String)
  | serverError (detail : String)
deriving DecidableEq, Repr

/-- Endpoint POST /api/expenses. FastAPI validates the body into ExpenseIn
before the handler body runs (a failure there is a client input error, not
caught by the handler try block). The handler dumps the model, replaces a
falsy date with the current UTC timestamp (passed here as now), inserts into
the expense collection, and maps any exception to a 500 carrying str(e). -/
def add_expense (now : String) (store : Store) (body : Doc) :
    HttpResponse × Store :=
  match ExpenseIn.validate body with
  | Except.error e => (HttpResponse.clientError e, store)
  | Except.ok expense =>
      let data := ExpenseIn.model_dump expense
      let data := setKey data "date" (pyOr (getKey data "date") (Value.str now))
      match create_document store "expense" data with
      | Except.error e => (HttpResponse.serverError e, store)
      | Except.ok (s2, id) => (HttpResponse.okCreate id, s2)

/-- Endpoint POST /api/budgets: validate body into BudgetIn, dump, insert
into the budget collection; exceptions become a 500 carrying str(e). -/
def add_budget (store : Store) (body : Doc) : HttpResponse × Store :=
  match BudgetIn.validate body with
  | Except.error e => (HttpResponse.clientError e, store)
  | Except.ok budget =>
      match create_document store "budget" (BudgetIn.model_dump budget) with
      | Except.error e => (HttpResponse.serverError e, store)
      | Except.ok (s2, id) => (HttpResponse.okCreate id, s2)

/-- Endpoint POST /api/goals: validate body into GoalIn, dump, insert into
the goal collection; exceptions become a 500 carrying str(e). -/
def add_goal (store : Store) (body : Doc) : HttpResponse × Store :=
  match GoalIn.validate body with
  | Except.error e => (HttpResponse.clientError e, store)
  | Except.ok goal =>
      match create_document store "goal" (GoalIn.model_dump goal) with
      | Except.error e => (HttpResponse.serverError e, store)
      | Except.ok (s2, id) => (HttpResponse.okCreate id, s2)

/-- FastAPI Query(default, ge, le) validation of the limit parameter: an
absent parameter takes the default; a present one outside the inclusive
bounds is rejected before the handler body runs. -/
def checkLimit (lo hi dflt : Int) (limit : Option Int) : Except String Int :=
  match limit with
  | none => Except.ok dflt
  | some n =>
      if lo ≤ n ∧ n ≤ hi then Except.ok n
      else Except.error "limit: value out of range"

/-- The filter list_expenses builds: always type = debit; category added by
dict assignment only when the parameter is truthy (present and non-empty). -/
def expenseFilter (category : Option String) : Doc :=
  let fq : Doc := [("type", Value.str "debit")]
  match category with
  | some c => if c.isEmpty then fq else setKey fq "category" (Value.str c)
  | none => fq

/-- The filter list_budgets builds: empty, with month added by dict
assignment only when the parameter is truthy (present and non-empty). -/
def budgetFilter (month : Option String) : Doc :=
  match month with
  | some m => if m.isEmpty then [] else setKey [] "month" (Value.str m)
  | none => []

/-- The per-item loop of every list handler: d["_id"] = str(d.get("_id")). -/
def stringifyIds (docs : List Doc) : List Doc :=
  docs.map (fun d => setKey d "_id" (Value.str (pyStrOpt (getKey d "_id"))))

/-- Endpoint GET /api/expenses: limit bounded 1 to 500 with default 50 by
Query before the handler body; the handler builds the filter, fetches, and
stringifies every identifier. -/
def list_expenses (store : Store) (category : Option String)
    (limit : Option Int) : HttpResponse :=
  match checkLimit 1 500 50 limit with
  | Except.error e => HttpResponse.clientError e
  | Except.ok lim =>
      match get_documents store "expense" (expenseFilter category) lim.toNat with
      | Except.error e => HttpResponse.serverError e
      | Except.ok docs => HttpResponse.okList (stringifyIds docs)

/-- Endpoint GET /api/budgets: limit bounded 1 to 200 with default 50. -/
def list_budgets (store : Store) (month : Option String)
    (limit : Option Int) : HttpResponse :=
  match checkLimit 1 200 50 limit with
  | Except.error e => HttpResponse.clientError e
  | Except.ok lim =>
      match get_documents store "budget" (budgetFilter month) lim.toNat with
      | Except.error e => HttpResponse.serverError e
      | Except.ok docs => HttpResponse.okList (stringifyIds docs)

/-- Endpoint GET /api/goals: empty filter, limit bounded 1 to 200 with
default 50. -/
def list_goals (store : Store) (limit : Option Int) : HttpResponse :=
  match checkLimit 1 200 50 limit with
  | Except.error e => HttpResponse.clientError e
  | Except.ok lim =>
      match get_documents store "goal" [] lim.toNat with
      | Except.error e => HttpResponse.serverError e
      | Except.ok docs => HttpResponse.okList (stringifyIds docs)

namespace schemas

/-! The declarative collection schemas of src/schemas.py. The endpoints of
main.py do not invoke these models; they are embedded here because they are
the schema-level constraints the repository itself declares (amount gt 0,
currency exactly three characters, type restricted to debit or credit,
current_amount ge 0, date-typed fields). Dates are modelled as ISO
YYYY-MM-DD strings. -/

/-- Field(gt=0) on a float field. -/
def gtZero (k : String) (q : Rat) : Except String Rat :=
  if 0 < q then Except.ok q
  else Except.error (k ++ ": value must be greater than 0")

/-- Field(ge=0) on a float field. -/
def geZero (k : String) (q : Rat) : Except String Rat :=
  if 0 ≤ q then Except.ok q
  else Except.error (k ++ ": value must be greater than or equal to 0")

/-- Field(min_length=3, max_length=3) on a string field. -/
def len3 (k : String) (s : String) : Except String String :=
  if s.length = 3 then Except.ok s
  else Except.error (k ++ ": value must have length 3")

/-- Literal["debit", "credit"] on a string field. -/
def debitOrCredit (k : String) (s : String) : Except String String :=
  if s = "debit" ∨ s = "credit" then Except.ok s
  else Except.error (k ++ ": value is not a permitted value (debit, credit)")

/-- Shape check for a pydantic date parsed from an ISO string (digit ranges
of month and day are not modelled; no claim depends on them). -/
def isIsoDate (s : String) : Bool :=
  match s.toList with
  | [a, b, c, d, dash1, e, f, dash2, g, h] =>
      [a, b, c, d, e, f, g, h].all Char.isDigit &&
        dash1 = Char.ofNat 45 && dash2 = Char.ofNat 45
  | _ => false

/-- Optional[date] field: absent or null is none; a string must parse as an
ISO date. -/
def optDate (d : Doc) (k : String) : Except String (Option String) :=
  match getKey d k with
  | some (Value.str s) =>
      if isIsoDate s then Except.ok (some s)
      else Except.error (k ++ ": value is not a valid date")
  | some Value.null => Except.ok none
  | some _ => Except.error (k ++ ": value is not a valid date")
  | none => Except.ok none

/-- Collection schema Expense of schemas.py: amount gt 0, currency exactly
three characters defaulting to USD, type enumerated debit or credit. -/
structure Expense where
  amount : Rat
  currency : String
  date : Option String
  merchant : Option String
  note : Option String
  category : Option String
  account : Option String
  type : String
deriving DecidableEq, Repr

def Expense.validate (d : Doc) : Except String schemas.Expense := do
  let amount ← reqFloat d "amount"
  let amount ← gtZero "amount" amount
  let currency ← defStr d "currency" "USD"
  let currency ← len3 "currency" currency
  let date ← optDate d "date"
  let merchant ← optStr d "merchant"
  let note ← optStr d "note"
  let category ← optStr d "category"
  let account ← optStr d "account"
  let ty ← defStr d "type" "debit"
  let ty ← debitOrCredit "type" ty
  Except.ok { amount := amount, currency := currency, date := date,
              merchant := merchant, note := note, category := category,
              account := account, type := ty }

/-- Collection schema Budget of schemas.py: amount gt 0. -/
structure Budget where
  category : String
  amount : Rat
  month : Option String
deriving DecidableEq, Repr

def Budget.validate (d : Doc) : Except String schemas.Budget := do
  let category ← reqStr d "category"
  let amount ← reqFloat d "amount"
  let amount ← gtZero "amount" amount
  let month ← optStr d "month"
  Except.ok { category := category, amount := amount, month := month }

/-- Collection schema Goal of schemas.py: target_amount gt 0, current_amount
ge 0 defaulting to 0, deadline an optional date. -/
structure Goal where
  name : String
  target_amount : Rat
  current_amount : Rat
  deadline : Option String
deriving DecidableEq, Repr

def Goal.validate (d : Doc) : Except String schemas.Goal := do
  let name ← reqStr d "name"
  let target_amount ← reqFloat d "target_amount"
  let target_amount ← gtZero "target_amount" target_amount
  let current_amount ← defFloat d "current_amount" 0
  let current_amount ← geZero "current_amount" current_amount
  let deadline ← optDate d "deadline"
  Except.ok { name := name, target_amount := target_amount,
              current_amount := current_amount, deadline := deadline }

end schemas

/-! Dict lemmas used throughout the theorems. -/

theorem getKey_setKey_self (d : Doc) (k : String) (v : Value) :
    getKey (setKey d k v) k = some v := by
  induction d with
  | nil => simp [setKey, getKey]
  | cons hd tl ih =>
      by_cases h : hd.1 = k
      · simp [setKey, h, getKey]
      · simp [setKey, h, getKey, ih]

theorem getKey_setKey_ne (d : Doc) (k k2 : String) (v : Value)
    (h : k2 ≠ k) : getKey (setKey d k v) k2 = getKey d k2 := by
  have hk : ¬ k = k2 := fun hk => h hk.symm
  induction d with
  | nil => simp [setKey, getKey, hk]
  | cons hd tl ih =>
      obtain ⟨kh, w⟩ := hd
      by_cases h1 : kh = k
      · subst h1
        simp [setKey, getKey, hk]
      · by_cases h2 : kh = k2
        · subst h2
          simp [setKey, getKey, h]
        · simp [setKey, getKey, h1, h2, ih]

theorem matchesFilter_getKey (doc fq : Doc) (k : String) (v : Value)
    (hm : matchesFilter doc fq = true) (hk : (k, v) ∈ fq) :
    getKey doc k = some v := by
  have := List.all_eq_true.mp hm (k, v) hk
  exact of_decide_eq_true this

/-! Concrete fixtures used by the claim theorems. -/

/-- An empty, reachable store. -/
def store0 : Store := { docs := [], nextId := 0, unreachable := none }

/-- A Budget create body whose amount is negative. -/
def budgetBodyNeg : Doc :=
  [("category", Value.str "food"), ("amount", Value.num (-5))]

/-- A Goal create body whose target_amount is negative. -/
def goalBodyNeg : Doc :=
  [("name", Value.str "car"), ("target_amount", Value.num (-5))]

/-- An Expense create body whose type is neither debit nor credit. -/
def expenseBodyBadType : Doc :=
  [("amount", Value.num 5), ("type", Value.str "transfer")]

/-- C1: the claim says a Budget create with amount ≤ 0 (and a Goal create
with target_amount ≤ 0) fails with a validation error before any storage
interaction and stores nothing. On the code it is false: the request models
BudgetIn and GoalIn of main.py declare these amounts as plain floats with no
positivity constraint, so amount = -5 passes validation, the handler calls
the facade, the document is persisted, and the endpoint answers ok — even
though the very schemas the repository declares in schemas.py (Budget.amount
gt 0, Goal.target_amount gt 0) reject the same input. -/
theorem budget_goal_nonpositive_accepted_contra_schema :
    (add_budget store0 budgetBodyNeg).1 = HttpResponse.okCreate 0 ∧
    (add_budget store0 budgetBodyNeg).2.docs =
      [("budget",
        [("category", Value.str "food"), ("amount", Value.num (-5)),
         ("month", Value.null), ("_id", Value.oid 0)])] ∧
    schemas.Budget.validate budgetBodyNeg =
      Except.error "amount: value must be greater than 0" ∧
    (add_goal store0 goalBodyNeg).1 = HttpResponse.okCreate 0 ∧
    (add_goal store0 goalBodyNeg).2.docs =
      [("goal",
        [("name", Value.str "car"), ("target_amount", Value.num (-5)),
         ("current_amount", Value.num 0), ("deadline", Value.null),
         ("_id", Value.oid 0)])] ∧
    schemas.Goal.validate goalBodyNeg =
      Except.error "target_amount: value must be greater than 0" := by
  refine ⟨rfl, rfl, rfl, rfl, rfl, rfl⟩

/-- C2: the claim says an Expense create whose type is neither debit nor
credit is rejected with a validation failure naming the field and never
inserted. On the code it is false: ExpenseIn of main.py declares type as a
plain str defaulting to debit, so type = "transfer" passes validation and
the document is inserted with that type — even though the Expense schema the
repository declares in schemas.py (Literal debit or credit) rejects the same
input naming the type field. -/
theorem expense_type_not_enumerated_contra_schema :
    (add_expense "T0" store0 expenseBodyBadType).1 = HttpResponse.okCreate 0 ∧
    getKey ((add_expense "T0" store0 expenseBodyBadType).2.docs.headI.2)
        "type" = some (Value.str "transfer") ∧
    (add_expense "T0" store0 expenseBodyBadType).2.docs.length = 1 ∧
    schemas.Expense.validate expenseBodyBadType =
      Except.error "type: value is not a permitted value (debit, credit)" := by
  refine ⟨rfl, rfl, rfl, rfl⟩

/-! Shape lemmas about the create path of add_expense, shared by the
date-normalization theorems. -/

theorem add_expense_ok (now : String) (store : Store) (body : Doc)
    (e : ExpenseIn) (hs : store.unreachable = none)
    (hv : ExpenseIn.validate body = Except.ok e) :
    add_expense now store body =
      (HttpResponse.okCreate store.nextId,
       { store with
          docs := store.docs ++
            [("expense",
              setKey (setKey (ExpenseIn.model_dump e) "date"
                  (pyOr (getKey (ExpenseIn.model_dump e) "date")
                    (Value.str now)))
                "_id" (Value.oid store.nextId))],
          nextId := store.nextId + 1 }) := by
  simp [add_expense, hv, create_document, hs]

theorem stored_expense_date (e : ExpenseIn) (now : String) (i : Nat) :
    getKey (setKey (setKey (ExpenseIn.model_dump e) "date"
        (pyOr (getKey (ExpenseIn.model_dump e) "date") (Value.str now)))
      "_id" (Value.oid i)) "date" =
    some (match e.date with
          | some s => if s.isEmpty then Value.str now else Value.str s
          | none => Value.str now) := by
  rw [getKey_setKey_ne _ _ _ _ (by decide), getKey_setKey_self]
  have hdump : getKey (ExpenseIn.model_dump e) "date" = some (optVal e.date) :=
    rfl
  rw [hdump]
  cases e.date with
  | none => rfl
  | some s =>
      by_cases h : s.isEmpty
      · simp [pyOr, optVal, Value.truthy, h]
      · simp [pyOr, optVal, Value.truthy, h]

/-- C3 counterexample: an Expense created with the supplied date "" is stored
with the ingestion timestamp, not with the supplied value, so a supplied date
is not always stored unchanged. -/
theorem expense_supplied_empty_date_overwritten :
    getKey [("amount", Value.num 5), ("date", Value.str "")] "date" =
      some (Value.str "") ∧
    getKey ((add_expense "2024-05-01T12:00:00" store0
        [("amount", Value.num 5), ("date", Value.str "")]).2.docs.headI.2)
        "date" = some (Value.str "2024-05-01T12:00:00") ∧
    Value.str "2024-05-01T12:00:00" ≠ Value.str "" := by
  refine ⟨rfl, rfl, by decide⟩

/-- C3 as amended: with a reachable store, a validated Expense create stores
exactly one new document in the expense collection whose date is the current
UTC ingestion timestamp when the supplied date is absent, null or the empty
string, and is the supplied value unchanged when it is a non-empty string. -/
theorem expense_date_normalization (now : String) (store : Store) (body : Doc)
    (e : ExpenseIn) (hs : store.unreachable = none)
    (hv : ExpenseIn.validate body = Except.ok e) :
    ∃ d : Doc,
      (add_expense now store body).2.docs = store.docs ++ [("expense", d)] ∧
      getKey d "date" =
        some (match e.date with
              | some s => if s.isEmpty then Value.str now else Value.str s
              | none => Value.str now) := by
  refine ⟨_, ?_, stored_expense_date e now store.nextId⟩
  rw [add_expense_ok now store body e hs hv]

/-- C3 witness: creating an Expense with no date field stores the ingestion
timestamp. -/
theorem expense_date_normalization_witness :
    ∃ d : Doc,
      (add_expense "T0" store0 [("amount", Value.num 5)]).2.docs =
        store0.docs ++ [("expense", d)] ∧
      getKey d "date" = some (Value.str "T0") :=
  expense_date_normalization "T0" store0 [("amount", Value.num 5)]
    { amount := 5, currency := "USD", date := none, merchant := none,
      note := none, category := none, account := none, type := "debit" }
    rfl rfl

/-- C4: every list endpoint bounds and defaults its limit before the handler
body runs: a limit outside the inclusive bound (1 to 500 for expenses, 1 to
200 for budgets and goals) yields a client input error for every store state
whatsoever — in particular the facade is never consulted and nothing is
clamped — and an absent limit behaves exactly as limit = 50. -/
theorem list_limit_bounds :
    (∀ (store : Store) (category : Option String) (n : Int),
        n < 1 ∨ 500 < n →
        list_expenses store category (some n) =
          HttpResponse.clientError "limit: value out of range") ∧
    (∀ (store : Store) (category : Option String),
        list_expenses store category none =
          list_expenses store category (some 50)) ∧
    (∀ (store : Store) (month : Option String) (n : Int),
        n < 1 ∨ 200 < n →
        list_budgets store month (some n) =
          HttpResponse.clientError "limit: value out of range") ∧
    (∀ (store : Store) (month : Option String),
        list_budgets store month none = list_budgets store month (some 50)) ∧
    (∀ (store : Store) (n : Int),
        n < 1 ∨ 200 < n →
        list_goals store (some n) =
          HttpResponse.clientError "limit: value out of range") ∧
    (∀ (store : Store), list_goals store none = list_goals store (some 50)) := by
  refine ⟨?_, fun store category => rfl, ?_, fun store month => rfl,
         ?_, fun store => rfl⟩
  · intro store category n hn
    have h : ¬ (1 ≤ n ∧ n ≤ 500) := by omega
    simp [list_expenses, checkLimit, h]
  · intro store month n hn
    have h : ¬ (1 ≤ n ∧ n ≤ 200) := by omega
    simp [list_budgets, checkLimit, h]
  · intro store n hn
    have h : ¬ (1 ≤ n ∧ n ≤ 200) := by omega
    simp [list_goals, checkLimit, h]

/-- C4 witness: limit 501 on the expense list is rejected as a client input
error. -/
theorem list_limit_bounds_witness :
    list_expenses store0 none (some 501) =
      HttpResponse.clientError "limit: value out of range" :=
  list_limit_bounds.1 store0 none 501 (Or.inr (by decide))

/-- C6: absent optional fields resolve to their documented defaults: an
Expense created from amount alone gets currency USD and type debit with
date, merchant, note, category and account unset; a Budget created from
category and amount leaves month unset; a Goal created from name and
target_amount gets current_amount 0 and leaves deadline unset. -/
theorem create_defaults :
    (∀ a : Rat, ExpenseIn.validate [("amount", Value.num a)] =
        Except.ok { amount := a, currency := "USD", date := none,
                    merchant := none, note := none, category := none,
                    account := none, type := "debit" }) ∧
    (∀ (c : String) (a : Rat),
        BudgetIn.validate [("category", Value.str c), ("amount", Value.num a)] =
          Except.ok { category := c, amount := a, month := none }) ∧
    (∀ (nm : String) (t : Rat),
        GoalIn.validate
            [("name", Value.str nm), ("target_amount", Value.num t)] =
          Except.ok { name := nm, target_amount := t, current_amount := 0,
                      deadline := none }) :=
  ⟨fun a => rfl, fun c a => rfl, fun nm t => rfl⟩

/-- C9: a present-but-empty narrowing parameter is treated exactly as an
absent one, because the handlers test it for truthiness: listing expenses
with category = "" builds the same filter, and the same response, as listing
with no category, and likewise budgets with month = "". -/
theorem empty_param_treated_as_absent :
    (∀ (store : Store) (lim : Option Int),
        list_expenses store (some "") lim = list_expenses store none lim) ∧
    expenseFilter (some "") = [("type", Value.str "debit")] ∧
    (∀ (store : Store) (lim : Option Int),
        list_budgets store (some "") lim = list_budgets store none lim) ∧
    budgetFilter (some "") = [] :=
  ⟨fun store lim => rfl, rfl, fun store lim => rfl, rfl⟩

/-- C10: the Expense create handler replaces every falsy date with the
ingestion timestamp: a body that supplies date = "" is stored with the
current UTC timestamp, not with the empty string. -/
theorem empty_date_replaced_with_timestamp (now : String) (store : Store)
    (a : Rat) (hs : store.unreachable = none) :
    ∃ d : Doc,
      (add_expense now store
          [("amount", Value.num a), ("date", Value.str "")]).2.docs =
        store.docs ++ [("expense", d)] ∧
      getKey d "date" = some (Value.str now) := by
  have h := add_expense_ok now store
      [("amount", Value.num a), ("date", Value.str "")]
      { amount := a, currency := "USD", date := some "", merchant := none,
        note := none, category := none, account := none, type := "debit" }
      hs rfl
  rw [h]
  exact ⟨_, rfl, stored_expense_date
      { amount := a, currency := "USD", date := some "", merchant := none,
        note := none, category := none, account := none, type := "debit" }
      now store.nextId⟩

/-- C10 witness: concrete instance on the empty store. -/
theorem empty_date_replaced_with_timestamp_witness :
    ∃ d : Doc,
      (add_expense "T9" store0
          [("amount", Value.num 4), ("date", Value.str "")]).2.docs =
        store0.docs ++ [("expense", d)] ∧
      getKey d "date" = some (Value.str "T9") :=
  empty_date_replaced_with_timestamp "T9" store0 4 rfl

/-! Shape lemmas about the list path, shared by the filter and identifier
theorems. -/

theorem get_documents_matches (store : Store) (coll : String) (fq : Doc)
    (lim : Nat) (docs : List Doc)
    (h : get_documents store coll fq lim = Except.ok docs) :
    ∀ d ∈ docs, matchesFilter d fq = true := by
  unfold get_documents at h
  split at h
  · exact absurd h (by simp)
  · intro d hd
    rw [← Except.ok.inj h] at hd
    rcases List.mem_map.mp (List.mem_of_mem_take hd) with ⟨p, hp, rfl⟩
    have hpred := (List.mem_filter.mp hp).2
    simp only [Bool.and_eq_true] at hpred
    exact hpred.2

theorem list_expenses_okList (store : Store) (category : Option String)
    (lim : Option Int) (items : List Doc)
    (h : list_expenses store category lim = HttpResponse.okList items) :
    ∃ docs, (∀ d ∈ docs, matchesFilter d (expenseFilter category) = true) ∧
      items = stringifyIds docs := by
  unfold list_expenses at h
  split at h
  · exact absurd h (by simp)
  · split at h
    · exact absurd h (by simp)
    · rename_i hgd
      exact ⟨_, get_documents_matches store "expense" _ _ _ hgd,
        (HttpResponse.okList.inj h).symm⟩

theorem list_budgets_okList (store : Store) (month : Option String)
    (lim : Option Int) (items : List Doc)
    (h : list_budgets store month lim = HttpResponse.okList items) :
    ∃ docs, (∀ d ∈ docs, matchesFilter d (budgetFilter month) = true) ∧
      items = stringifyIds docs := by
  unfold list_budgets at h
  split at h
  · exact absurd h (by simp)
  · split at h
    · exact absurd h (by simp)
    · rename_i hgd
      exact ⟨_, get_documents_matches store "budget" _ _ _ hgd,
        (HttpResponse.okList.inj h).symm⟩

theorem list_goals_okList (store : Store) (lim : Option Int)
    (items : List Doc)
    (h : list_goals store lim = HttpResponse.okList items) :
    ∃ docs, items = stringifyIds docs := by
  unfold list_goals at h
  split at h
  · exact absurd h (by simp)
  · split at h
    · exact absurd h (by simp)
    · exact ⟨_, (HttpResponse.okList.inj h).symm⟩

theorem stringifyIds_mem (docs : List Doc) (d : Doc)
    (hd : d ∈ stringifyIds docs) :
    ∃ d0 ∈ docs,
      d = setKey d0 "_id" (Value.str (pyStrOpt (getKey d0 "_id"))) := by
  rcases List.mem_map.mp hd with ⟨d0, h0, rfl⟩
  exact ⟨d0, h0, rfl⟩

/-- Two debit expenses with categories food and travel, inserted into the
empty store. -/
def storeFoodTravel : Store :=
  (add_expense "T1"
    (add_expense "T0" store0
      [("amount", Value.num 5), ("category", Value.str "food")]).2
    [("amount", Value.num 7), ("category", Value.str "travel")]).2

/-- C5 counterexample: the category parameter is provided as the empty
string, yet the filter passed to the store carries no category equality, and
the listing returns both the food and the travel expense. -/
theorem expense_filter_empty_category_counterexample :
    getKey (expenseFilter (some "")) "category" = none ∧
    (∃ items, list_expenses storeFoodTravel (some "") none =
        HttpResponse.okList items ∧
        items.map (fun d => getKey d "category") =
          [some (Value.str "food"), some (Value.str "travel")]) :=
  ⟨rfl, ⟨_, rfl, rfl⟩⟩

/-- C5 as amended: the expense filter always carries type = debit, and
carries an exact-match category equality exactly when a non-empty category
parameter is provided; consequently every item of a successful listing with
category food is a debit document of category food. -/
theorem expense_filter_correctness :
    (∀ category : Option String,
        getKey (expenseFilter category) "type" = some (Value.str "debit")) ∧
    (∀ c : String, c.isEmpty = false →
        getKey (expenseFilter (some c)) "category" = some (Value.str c)) ∧
    getKey (expenseFilter none) "category" = none ∧
    getKey (expenseFilter (some "")) "category" = none ∧
    (∀ (store : Store) (lim : Option Int) (items : List Doc),
        list_expenses store (some "food") lim = HttpResponse.okList items →
        ∀ d ∈ items,
          getKey d "type" = some (Value.str "debit") ∧
          getKey d "category" = some (Value.str "food")) := by
  refine ⟨?_, ?_, rfl, rfl, ?_⟩
  · intro category
    rcases category with _ | c
    · rfl
    · by_cases h : c.isEmpty <;> simp [expenseFilter, setKey, getKey, h]
  · intro c hc
    simp [expenseFilter, setKey, getKey, hc]
  · intro store lim items h d hd
    rcases list_expenses_okList store (some "food") lim items h with
      ⟨docs, hm, rfl⟩
    rcases stringifyIds_mem docs d hd with ⟨d0, h0, rfl⟩
    have hmf := hm d0 h0
    constructor
    · rw [getKey_setKey_ne _ _ _ _ (by decide)]
      exact matchesFilter_getKey d0 _ "type" (Value.str "debit") hmf
        (by decide)
    · rw [getKey_setKey_ne _ _ _ _ (by decide)]
      exact matchesFilter_getKey d0 _ "category" (Value.str "food") hmf
        (by decide)

/-- C5 witness: on the food and travel store, listing with category food
returns one item and it is a debit document of category food. -/
theorem expense_filter_correctness_witness :
    getKey [("amount", Value.num 5), ("currency", Value.str "USD"),
            ("date", Value.str "T0"), ("merchant", Value.null),
            ("note", Value.null), ("category", Value.str "food"),
            ("account", Value.null), ("type", Value.str "debit"),
            ("_id", Value.str "0")] "type" = some (Value.str "debit") ∧
    getKey [("amount", Value.num 5), ("currency", Value.str "USD"),
            ("date", Value.str "T0"), ("merchant", Value.null),
            ("note", Value.null), ("category", Value.str "food"),
            ("account", Value.null), ("type", Value.str "debit"),
            ("_id", Value.str "0")] "category" = some (Value.str "food") :=
  expense_filter_correctness.2.2.2.2 storeFoodTravel none _ rfl _
    (List.Mem.head _)

/-- One goal inserted into the empty store. -/
def storeOneGoal : Store :=
  (add_goal store0
    [("name", Value.str "g"), ("target_amount", Value.num 1)]).2

/-- C7: every item of every successful list response, for all three record
kinds, carries its store identifier under the key _id as a string value. -/
theorem list_items_id_stringified (store : Store)
    (category month : Option String) (lim : Option Int) (items : List Doc)
    (h : list_expenses store category lim = HttpResponse.okList items ∨
         list_budgets store month lim = HttpResponse.okList items ∨
         list_goals store lim = HttpResponse.okList items) :
    ∀ d ∈ items, ∃ s : String, getKey d "_id" = some (Value.str s) := by
  intro d hd
  have hsh : ∃ docs, items = stringifyIds docs := by
    rcases h with h | h | h
    · rcases list_expenses_okList store category lim items h with ⟨docs, -, hi⟩
      exact ⟨docs, hi⟩
    · rcases list_budgets_okList store month lim items h with ⟨docs, -, hi⟩
      exact ⟨docs, hi⟩
    · exact list_goals_okList store lim items h
  rcases hsh with ⟨docs, rfl⟩
  rcases stringifyIds_mem docs d hd with ⟨d0, -, rfl⟩
  exact ⟨_, getKey_setKey_self _ _ _⟩

/-- C7 witness: the single item of the goal listing carries a string _id. -/
theorem list_items_id_stringified_witness :
    ∃ s : String,
      getKey [("name", Value.str "g"), ("target_amount", Value.num 1),
              ("current_amount", Value.num 0), ("deadline", Value.null),
              ("_id", Value.str "0")] "_id" = some (Value.str s) :=
  list_items_id_stringified storeOneGoal none none none _
    (Or.inr (Or.inr rfl)) _ (List.Mem.head _)

/-- A storage error message longer than the 50-character truncation width
the repository uses in its one truncating site (the /test endpoint). -/
def longErrMsg : String :=
  "could not reach the document store: connection refused after several attempts"

set_option maxRecDepth 4096 in
/-- C8 counterexample: a storage failure inside the Expense create handler
surfaces with the full error message — longer than 50 characters and not
equal to any 50-character truncation of itself — so the surfaced description
is not truncated. -/
theorem handler_error_not_truncated :
    (add_expense "T0" { docs := [], nextId := 0, unreachable := some longErrMsg }
        [("amount", Value.num 5)]).1 = HttpResponse.serverError longErrMsg ∧
    50 < longErrMsg.length ∧
    longErrMsg.take 50 ≠ longErrMsg := by
  refine ⟨rfl, by decide, by decide⟩

/-- C8 as amended: every storage failure raised inside a create or list
handler surfaces as a server-side error response carrying the full error
description as text, the store is left unchanged (in particular no document
is persisted), and the failure is not retried by this layer. -/
theorem storage_failure_surfaced_in_full :
    (∀ (now msg : String) (store : Store) (body : Doc) (e : ExpenseIn),
        store.unreachable = some msg →
        ExpenseIn.validate body = Except.ok e →
        add_expense now store body = (HttpResponse.serverError msg, store)) ∧
    (∀ (msg : String) (store : Store) (body : Doc) (b : BudgetIn),
        store.unreachable = some msg →
        BudgetIn.validate body = Except.ok b →
        add_budget store body = (HttpResponse.serverError msg, store)) ∧
    (∀ (msg : String) (store : Store) (body : Doc) (g : GoalIn),
        store.unreachable = some msg →
        GoalIn.validate body = Except.ok g →
        add_goal store body = (HttpResponse.serverError msg, store)) ∧
    (∀ (msg : String) (store : Store) (category : Option String) (n : Int),
        store.unreachable = some msg → 1 ≤ n → n ≤ 500 →
        list_expenses store category (some n) =
          HttpResponse.serverError msg) ∧
    (∀ (msg : String) (store : Store) (month : Option String) (n : Int),
        store.unreachable = some msg → 1 ≤ n → n ≤ 200 →
        list_budgets store month (some n) = HttpResponse.serverError msg) ∧
    (∀ (msg : String) (store : Store) (n : Int),
        store.unreachable = some msg → 1 ≤ n → n ≤ 200 →
        list_goals store (some n) = HttpResponse.serverError msg) := by
  refine ⟨?_, ?_, ?_, ?_, ?_, ?_⟩
  · intro now msg store body e hs hv
    simp [add_expense, hv, create_document, hs]
  · intro msg store body b hs hv
    simp [add_budget, hv, create_document, hs]
  · intro msg store body g hs hv
    simp [add_goal, hv, create_document, hs]
  · intro msg store category n hs h1 h2
    simp [list_expenses, checkLimit, h1, h2, get_documents, hs]
  · intro msg store month n hs h1 h2
    simp [list_budgets, checkLimit, h1, h2, get_documents, hs]
  · intro msg store n hs h1 h2
    simp [list_goals, checkLimit, h1, h2, get_documents, hs]

/-- An unreachable store. -/
def storeDown : Store := { docs := [], nextId := 0, unreachable := some "boom" }

/-- C8 witness: concrete storage failure in the Expense create handler. -/
theorem storage_failure_surfaced_in_full_witness :
    add_expense "T0" storeDown [("amount", Value.num 5)] =
      (HttpResponse.serverError "boom", storeDown) :=
  storage_failure_surfaced_in_full.1 "T0" "boom" storeDown
    [("amount", Value.num 5)]
    { amount := 5, currency := "USD", date := none, merchant := none,
      note := none, category := none, account := none, type := "debit" }
    rfl rfl
